import Mathlib

/-!
Verification development for the Swift prefetching/caching middleware
(`caching.py`).  The middleware intercepts GET requests and serves cached
objects, and POST requests carrying an `X-Object-Prefetch` header to
populate or evict cache entries.  Two backends exist: a disk store that
keeps the body in a file and the pickled headers in chunked extended
attributes, and a memcache store that keeps one pickled blob per key.

The embedding below is a direct translation of the source: per-request
computations become pure functions over an explicit `World` state (the
filesystem, the memcache contents, and an injected xattr fault model),
and Python exceptions become the `PRes` error monad.
-/

namespace Caching

/-- Python exceptions that the middleware code can raise.  `attributeError`
records the name of the attribute that was read but never assigned. -/
inductive PyErr where
  | attributeError (name : String)
  | typeError
  | keyError (k : String)
  | ioError
  | unpicklingError
  | diskFileNoSpace
  | diskFileNotExist
  | diskFileXattrNotSupported
deriving DecidableEq

/-- Result of a Python computation: a value or a raised exception. -/
inductive PRes (α : Type) where
  | ok (a : α)
  | err (e : PyErr)
deriving DecidableEq

/-- Header values as they occur in the source: strings, the integer that
`len(...)` produces, and the Python booleans written into request headers. -/
inductive HVal where
  | str (s : String)
  | int (n : Nat)
  | bool (b : Bool)
deriving DecidableEq

/-- Ordered string-keyed mapping, the data model for request and response
headers and for the pickled metadata dictionaries. -/
abbrev Headers := List (String × HVal)

/-- Association-list lookup (Python `d[k]` / `k in d`). -/
def lookupA {α : Type} : List (String × α) → String → Option α
  | [], _ => none
  | (k, v) :: t, key => if k = key then some v else lookupA t key

/-- Association-list update (Python `d[k] = v`): replaces the value in
place if the key is present, appends otherwise. -/
def setA {α : Type} : List (String × α) → String → α → List (String × α)
  | [], key, v => [(key, v)]
  | (k, w) :: t, key, v => if k = key then (k, v) :: t else (k, w) :: setA t key v

/-- Association-list removal (Python `del d[k]` / file removal). -/
def removeA {α : Type} : List (String × α) → String → List (String × α)
  | [], _ => []
  | (k, w) :: t, key => if k = key then removeA t key else (k, w) :: removeA t key

/-- Modelled from the spec: the serialization of a string inside the
external `pickle` library, as a self-describing length-prefixed byte
sequence (spec 4.1 requires a stable, self-describing format). -/
def encStr (s : String) : List Nat := s.length :: s.toList.map Char.toNat

/-- Modelled from the spec: the matching deserialization of one string,
returning the string and the unconsumed bytes. -/
def decStr (bs : List Nat) : Option (String × List Nat) :=
  match bs with
  | [] => none
  | n :: rest =>
    if n ≤ rest.length then
      some (String.mk ((rest.take n).map Char.ofNat), rest.drop n)
    else none

/-- Modelled from the spec: the tagged serialization of one header value. -/
def encVal : HVal → List Nat
  | .str s => 0 :: encStr s
  | .int n => [1, n]
  | .bool b => [2, if b then 1 else 0]

/-- Modelled from the spec: the matching deserialization of one value. -/
def decVal (bs : List Nat) : Option (HVal × List Nat) :=
  match bs with
  | 0 :: rest =>
    match decStr rest with
    | some (s, r) => some (.str s, r)
    | none => none
  | 1 :: n :: rest => some (.int n, rest)
  | 2 :: b :: rest => some (.bool (b != 0), rest)
  | _ => none

/-- Modelled from the spec: deserialization of a counted sequence of
key/value pairs.  Like `pickle.loads`, bytes after the encoded object are
ignored (the real pickle stops at its end marker). -/
def decPairs : Nat → List Nat → Option Headers
  | 0, _ => some []
  | k + 1, bs =>
    match decStr bs with
    | none => none
    | some (s, r1) =>
      match decVal r1 with
      | none => none
      | some (v, r2) =>
        match decPairs k r2 with
        | none => none
        | some t => some ((s, v) :: t)

/-- Modelled from the spec: `pickle.dumps` for a header mapping.  The
empty mapping still serializes to a non-empty marker (spec 4.1). -/
def pickle_dumps (h : Headers) : List Nat :=
  h.length :: (h.map (fun p => encStr p.1 ++ encVal p.2)).flatten

/-- Modelled from the spec: `pickle.loads`; fails (raises) on bytes that
do not parse as a serialized header mapping. -/
def pickle_loads (bs : List Nat) : Option Headers :=
  match bs with
  | [] => none
  | n :: rest => decPairs n rest

/-- Iteration of the `while metastr:` loop of `write_metadata`, with an
explicit fuel bound on the number of loop turns: each turn slices off
`metastr[:xattr_size]` and keeps `metastr[xattr_size:]`.  Every turn
consumes at least one byte, so fuel equal to the byte count never runs
out. -/
def chunkFuel (n : Nat) : Nat → List Nat → List (List Nat)
  | _, [] => []
  | 0, _ :: _ => []
  | f + 1, b :: rest => (b :: rest.take (n - 1)) :: chunkFuel n f (rest.drop (n - 1))

/-- The chunk split performed by `write_metadata`: consecutive slices
`metastr[:xattr_size]` in order.  Faithful to the source for every
`n ≥ 1` (for `n = 0` the Python loop does not terminate). -/
def chunkBytes (n : Nat) (s : List Nat) : List (List Nat) :=
  chunkFuel n s.length s

/-- One cached file of the disk backend: the body written by
`open(obj_path, 'w')` and the extended-attribute slots
`user.swift.metadata`, `user.swift.metadata1`, ... in index order. -/
structure DiskFile where
  body : String
  xattrs : List (List Nat)
deriving DecidableEq

/-- Errno families injected by the xattr fault model of `write_metadata`. -/
inductive XattrFault where
  | enospc
  | enotsup
deriving DecidableEq

/-- The mutable state the middleware acts on: the cache directory tree
(path to file), the memcache contents (path to pickled blob), and an
injected fault for `xattr.setxattr`: `some (n, kind)` makes call number
`n` (counting from 0) fail with that errno family. -/
structure World where
  fs : List (String × DiskFile)
  memcache : List (String × List Nat)
  xattrFault : Option (Nat × XattrFault)
deriving DecidableEq

/-- An inbound WSGI request as the middleware reads it: method, path and
headers (`self.req` in the source). -/
structure SwRequest where
  method : String
  path : String
  headers : Headers
deriving DecidableEq

/-- Modelled from the spec: the external `swob.Response` value, recorded
as the constructor arguments the middleware passes (body, the header
mapping — empty when the `headers` argument was absent or falsy — and the
success flag of the status). -/
structure SwResponse where
  body : String
  headers : Headers
  is_success : Bool
deriving DecidableEq

/-- The `xattr.setxattr` loop body of `write_metadata` applied to the
list of chunks: returns the slots actually written (slots written before
a fault persist) and whether a call failed.  `some n` means call number
`n` fails. -/
def writeSlots : List (List Nat) → Option Nat → List (List Nat) × Bool
  | [], _ => ([], false)
  | _ :: _, some 0 => ([], true)
  | c :: cs, some (n + 1) =>
    let r := writeSlots cs (some n)
    (c :: r.1, r.2)
  | c :: cs, none =>
    let r := writeSlots cs none
    (c :: r.1, r.2)

/-- CachingMiddlewareDisk.write_metadata: pickles the metadata, writes it
in `xattr_size`-byte chunks to slots 0, 1, 2, ... (overwriting the
existing slots of `old` in place; higher stale slots persist), and maps
an ENOSPC/EDQUOT fault to `DiskFileNoSpace` and an ENOTSUP fault to
`DiskFileXattrNotSupported`, as the source's except clause does. -/
def write_metadata (old : List (List Nat)) (metadata : Headers)
    (fault : Option (Nat × XattrFault)) (xattr_size : Nat) :
    List (List Nat) × Option PyErr :=
  let metastr := pickle_dumps metadata
  let chunks := chunkBytes xattr_size metastr
  let written := writeSlots chunks (fault.map Prod.fst)
  (written.1 ++ old.drop written.1.length,
   if written.2 then
     match fault with
     | some (_, .enospc) => some .diskFileNoSpace
     | some (_, .enotsup) => some .diskFileXattrNotSupported
     | none => none
   else none)

/-- CachingMiddlewareDisk.read_metadata: reads slot 0, 1, 2, ...
concatenating until the first read fails (the slot after the last stored
one fails with the attribute-not-found errno, which matches none of the
re-raise branches).  An empty concatenation returns Python `False`
(modeled `none`); otherwise the bytes are unpickled, and an unparseable
concatenation raises. -/
def read_metadata (slots : List (List Nat)) : PRes (Option Headers) :=
  let metadata := slots.flatten
  if metadata = [] then .ok none
  else
    match pickle_loads metadata with
    | some h => .ok (some h)
    | none => .err .unpicklingError

/-- CachingMiddleware.is_object_prefetch: membership test of the
`X-Object-Prefetch` header, regardless of its value. -/
def is_object_prefetch (req : SwRequest) : Bool :=
  (lookupA req.headers "X-Object-Prefetch").isSome

/-- CachingMiddlewareDisk.is_object_in_cache: `os.path.isfile` on
`location + path`. -/
def is_object_in_cache_disk (w : World) (location : String) (req : SwRequest) : Bool :=
  (lookupA w.fs (location ++ req.path)).isSome

/-- CachingMiddlewareDisk.get_cached_object: reads the file body, then
the metadata (get_object_metadata), and builds
`Response(body=data, headers=metadata, request=self.req)`.  A `False`
metadata value makes the `headers` argument falsy, so the response
carries no cached headers. -/
def get_cached_object_disk (w : World) (location : String) (req : SwRequest) :
    PRes SwResponse :=
  let obj_path := location ++ req.path
  match lookupA w.fs obj_path with
  | none => .err .diskFileNotExist
  | some f =>
    match read_metadata f.xattrs with
    | .err e => .err e
    | .ok md => .ok { body := f.body, headers := md.getD [], is_success := true }

/-- Request.copy_get followed by `new_req.headers['function-enabled'] = False`:
a GET request for the same path with the extra header set. -/
def copyGet (req : SwRequest) : SwRequest :=
  { method := "GET", path := req.path,
    headers := setA req.headers "function-enabled" (.bool false) }

/-- CachingMiddlewareDisk.prefetch_object.  On marker `True`: fetches
fresh from downstream with cache-bypass signaling; on success writes the
body file (`open(obj_path, 'w')` truncates the body but leaves existing
xattrs in place) and then the metadata, and answers with the
`Prefetched:` status response; on a metadata fault the partially-written
state persists and the exception propagates.  On a downstream failure
the source builds `Response(..., request=self.request)`, and `request`
is never assigned anywhere (only `self.req` is, in `__call__`), so an
AttributeError is raised.  On marker `False`: removes the file if
present and answers with the `Deleted ...` status response.  Any other
marker value matches neither branch and the function returns Python
`None` (modeled `.ok none`). -/
def prefetch_object_disk (app : SwRequest → SwResponse) (location : String)
    (req : SwRequest) (w : World) : World × PRes (Option SwResponse) :=
  let obj_path := location ++ req.path
  match lookupA req.headers "X-Object-Prefetch" with
  | none => (w, .err (.keyError "X-Object-Prefetch"))
  | some v =>
    if v = .str "True" then
      let response := app (copyGet req)
      if response.is_success then
        let oldX := ((lookupA w.fs obj_path).map DiskFile.xattrs).getD []
        let written := write_metadata oldX response.headers w.xattrFault 65536
        let w' := { w with fs := setA w.fs obj_path ⟨response.body, written.1⟩ }
        match written.2 with
        | some e => (w', .err e)
        | none =>
          (w', .ok (some { body := "Prefetched: " ++ req.path ++ "\n",
                           headers := [], is_success := true }))
      else
        (w, .err (.attributeError "request"))
    else if v = .str "False" then
      ({ w with fs := removeA w.fs obj_path },
       .ok (some { body := "Deleted " ++ req.path ++ " from cache\n",
                   headers := [], is_success := true }))
    else (w, .ok none)

/-- CachingMiddlewareMemcache.get_cached_object, as a function of the
`self.cached_object` blob stored by is_object_in_cache.  `pickle.loads`
of a missing blob raises (TypeError on `None`), of an unparseable blob
raises; otherwise the code computes the header mapping with
`content-length` overwritten by `len(body)` and then evaluates
`Response(..., request=self.request)` — but `request` is never assigned
(only `self.req` is), so the call raises AttributeError before any
response is returned. -/
def get_cached_object_mem (cached_object : Option (List Nat)) : PRes SwResponse :=
  match cached_object with
  | none => .err .typeError
  | some blob =>
    match decStr blob with
    | none => .err .unpicklingError
    | some (body, rest) =>
      match pickle_loads rest with
      | none => .err .unpicklingError
      | some hdrs =>
        -- resp_headers['content-length'] = len(cached_obj["Body"]) is computed,
        -- then discarded when the Response construction raises
        let _resp_headers := setA hdrs "content-length" (.int body.length)
        .err (.attributeError "request")

/-- CachingMiddlewareMemcache.prefetch_object.  On marker `True` the
very first statement is `self.request.copy_get()`, and `request` is
never assigned, so AttributeError is raised before any downstream fetch
or store.  On marker `False` the entry is deleted from memcache, and
then `Response(..., request=self.request)` raises the same
AttributeError.  Any other marker value returns Python `None`. -/
def prefetch_object_mem (req : SwRequest) (w : World) :
    World × PRes (Option SwResponse) :=
  match lookupA req.headers "X-Object-Prefetch" with
  | none => (w, .err (.keyError "X-Object-Prefetch"))
  | some v =>
    if v = .str "True" then
      (w, .err (.attributeError "request"))
    else if v = .str "False" then
      ({ w with memcache := removeA w.memcache req.path },
       .err (.attributeError "request"))
    else (w, .ok none)

/-- CachingMiddleware.__call__, the base-class dispatch shared by both
backends: a GET is answered from cache when is_object_in_cache holds and
forwarded to `self.app` otherwise; a POST carrying the prefetch header
dispatches to prefetch_object — when that returns `None` (unrecognized
marker value) the subsequent `resp(env, start_response)` call raises
TypeError; every other request is passed to the downstream app. -/
def middleware_call (in_cache : World → Bool) (get_cached : World → PRes SwResponse)
    (prefetch : World → World × PRes (Option SwResponse))
    (app : SwRequest → SwResponse) (req : SwRequest) (w : World) :
    World × PRes SwResponse :=
  if req.method = "GET" then
    if in_cache w then (w, get_cached w) else (w, .ok (app req))
  else if req.method = "POST" then
    if is_object_prefetch req then
      match prefetch w with
      | (w', .ok (some resp)) => (w', .ok resp)
      | (w', .ok none) => (w', .err .typeError)
      | (w', .err e) => (w', .err e)
    else (w, .ok (app req))
  else (w, .ok (app req))

/-- The disk middleware: base-class `__call__` with the
CachingMiddlewareDisk overrides. -/
def call_disk (app : SwRequest → SwResponse) (location : String)
    (req : SwRequest) (w : World) : World × PRes SwResponse :=
  middleware_call (fun w => is_object_in_cache_disk w location req)
    (fun w => get_cached_object_disk w location req)
    (fun w => prefetch_object_disk app location req w) app req w

/-- The memcache middleware: base-class `__call__` with the
CachingMiddlewareMemcache overrides (is_object_in_cache is
`self.memcache.get(path) is not None`, with the blob handed to
get_cached_object). -/
def call_mem (app : SwRequest → SwResponse) (req : SwRequest) (w : World) :
    World × PRes SwResponse :=
  middleware_call (fun w => (lookupA w.memcache req.path).isSome)
    (fun w => get_cached_object_mem (lookupA w.memcache req.path))
    (fun w => prefetch_object_mem req w) app req w

theorem chunkFuel_congr (n : Nat) :
    ∀ f g : Nat, ∀ s : List Nat, s.length ≤ f → s.length ≤ g →
      chunkFuel n f s = chunkFuel n g s := by
  intro f
  induction f with
  | zero =>
    intro g s hf _
    match s with
    | [] =>
      match g with
      | 0 => rfl
      | _ + 1 => rfl
    | _ :: _ => simp at hf
  | succ f ih =>
    intro g s hf hg
    match s with
    | [] =>
      match g with
      | 0 => rfl
      | _ + 1 => rfl
    | b :: rest =>
      match g with
      | 0 => simp at hg
      | g + 1 =>
        simp only [chunkFuel]
        have hlen : (rest.drop (n - 1)).length ≤ rest.length := by
          rw [List.length_drop]; omega
        have h1 : (rest.drop (n - 1)).length ≤ f := by
          simp only [List.length_cons] at hf; omega
        have h2 : (rest.drop (n - 1)).length ≤ g := by
          simp only [List.length_cons] at hg; omega
        rw [ih g (rest.drop (n - 1)) h1 h2]

theorem chunkBytes_cons (n b : Nat) (rest : List Nat) :
    chunkBytes n (b :: rest) =
      (b :: rest.take (n - 1)) :: chunkBytes n (rest.drop (n - 1)) := by
  show chunkFuel n (rest.length + 1) (b :: rest) = _
  simp only [chunkFuel, chunkBytes]
  congr 1
  apply chunkFuel_congr
  · rw [List.length_drop]; omega
  · exact Nat.le_refl _

theorem chunkBytes_flatten (n : Nat) (s : List Nat) :
    (chunkBytes n s).flatten = s := by
  match s with
  | [] => rfl
  | b :: rest =>
    have ih := chunkBytes_flatten n (rest.drop (n - 1))
    rw [chunkBytes_cons]
    simp only [List.flatten_cons, ih, List.cons_append]
    simp [List.take_append_drop]
termination_by s.length
decreasing_by
  simp only [List.length_drop, List.length_cons]
  omega

theorem chunkBytes_mem (n : Nat) (hn : 1 ≤ n) (s : List Nat) :
    ∀ c ∈ chunkBytes n s, c.length ≤ n ∧ c ≠ [] := by
  match s with
  | [] => intro c hc; simp [chunkBytes, chunkFuel] at hc
  | b :: rest =>
    have ih := chunkBytes_mem n hn (rest.drop (n - 1))
    intro c hc
    rw [chunkBytes_cons] at hc
    simp only [List.mem_cons] at hc
    rcases hc with h | h
    · subst h
      refine ⟨?_, by simp⟩
      have hle : (rest.take (n - 1)).length ≤ n - 1 := by
        rw [List.length_take]
        omega
      simp only [List.length_cons]
      omega
    · exact ih c h
termination_by s.length
decreasing_by
  simp only [List.length_drop, List.length_cons]
  omega

theorem map_ofNat_toNat (l : List Char) :
    (l.map Char.toNat).map Char.ofNat = l := by
  induction l with
  | nil => rfl
  | cons c t ih => simp [ih, Char.ofNat_toNat]

theorem decStr_encStr (s : String) (r : List Nat) :
    decStr (encStr s ++ r) = some (s, r) := by
  have hlen : (s.toList.map Char.toNat).length = s.length := by
    rw [List.length_map]
    rfl
  simp only [encStr, decStr, List.cons_append]
  rw [if_pos]
  · have ht : (s.toList.map Char.toNat ++ r).take s.length = s.toList.map Char.toNat := by
      rw [← hlen]; exact List.take_left _ _
    have hd : (s.toList.map Char.toNat ++ r).drop s.length = r := by
      rw [← hlen]; exact List.drop_left _ _
    rw [ht, hd, map_ofNat_toNat]
    rcases s with ⟨d⟩
    rfl
  · rw [List.length_append, hlen]
    omega

theorem decVal_encVal (v : HVal) (r : List Nat) :
    decVal (encVal v ++ r) = some (v, r) := by
  rcases v with s | n | b
  · simp [encVal, decVal, decStr_encStr]
  · simp [encVal, decVal]
  · rcases b with _ | _ <;> simp [encVal, decVal]

theorem decPairs_flatten (h : Headers) (extra : List Nat) :
    decPairs h.length ((h.map (fun p => encStr p.1 ++ encVal p.2)).flatten ++ extra) =
      some h := by
  induction h generalizing extra with
  | nil => rfl
  | cons p t ih =>
    rcases p with ⟨s, v⟩
    simp only [List.map_cons, List.flatten_cons, List.length_cons, List.append_assoc]
    simp only [decPairs, decStr_encStr, decVal_encVal, ih]

theorem pickle_loads_dumps (h : Headers) (extra : List Nat) :
    pickle_loads (pickle_dumps h ++ extra) = some h := by
  simp only [pickle_dumps, pickle_loads, List.cons_append]
  exact decPairs_flatten h extra

theorem writeSlots_none (cs : List (List Nat)) :
    writeSlots cs none = (cs, false) := by
  induction cs with
  | nil => rfl
  | cons c t ih => simp [writeSlots, ih]

theorem lookupA_setA_self {α : Type} (l : List (String × α)) (k : String) (v : α) :
    lookupA (setA l k v) k = some v := by
  induction l with
  | nil => simp [setA, lookupA]
  | cons p t ih =>
    rcases p with ⟨k', v'⟩
    by_cases h : k' = k
    · simp [setA, lookupA, h]
    · simp [setA, lookupA, h, ih]

theorem lookupA_removeA_self {α : Type} (l : List (String × α)) (k : String) :
    lookupA (removeA l k) k = none := by
  induction l with
  | nil => rfl
  | cons p t ih =>
    rcases p with ⟨k', v'⟩
    by_cases h : k' = k
    · simp [removeA, h, ih]
    · simp [removeA, lookupA, h, ih]

theorem read_metadata_of_write (old : List (List Nat)) (h : Headers) (n : Nat) :
    read_metadata (write_metadata old h none n).1 = .ok (some h) := by
  have h1 : (write_metadata old h none n).1 =
      chunkBytes n (pickle_dumps h) ++
        old.drop (chunkBytes n (pickle_dumps h)).length := by
    simp [write_metadata, writeSlots_none]
  rw [h1]
  simp only [read_metadata, List.flatten_append, chunkBytes_flatten]
  rw [if_neg, pickle_loads_dumps]
  simp [pickle_dumps]

/-- Sample downstream app used by concrete scenarios: always succeeds. -/
def app0 : SwRequest → SwResponse :=
  fun _ => { body := "downstream", headers := [("content-type", .str "text/plain")],
             is_success := true }

/-- Sample downstream app whose responses are not successful. -/
def appFail : SwRequest → SwResponse :=
  fun _ => { body := "storage error", headers := [], is_success := false }

/-- Claim C3: for every header mapping and every positive chunk size,
encoding splits the serialized bytes into consecutive chunks of at most
`xattr_size` bytes placed in slots 0, 1, 2, ... in index order (the
write_metadata loop), and decoding concatenates the slots in the same
ascending order and deserializes back to the original mapping with no
truncation. -/
theorem c3_chunk_roundtrip (h : Headers) (n : Nat) (hn : 1 ≤ n) :
    (∀ c ∈ chunkBytes n (pickle_dumps h), c.length ≤ n ∧ c ≠ []) ∧
    (chunkBytes n (pickle_dumps h)).flatten = pickle_dumps h ∧
    write_metadata [] h none n = (chunkBytes n (pickle_dumps h), none) ∧
    read_metadata (chunkBytes n (pickle_dumps h)) = .ok (some h) := by
  refine ⟨chunkBytes_mem n hn _, chunkBytes_flatten n _, ?_, ?_⟩
  · simp [write_metadata, writeSlots_none]
  · have h1 := read_metadata_of_write [] h n
    have h2 : (write_metadata [] h none n).1 = chunkBytes n (pickle_dumps h) := by
      simp [write_metadata, writeSlots_none]
    rw [h2] at h1
    exact h1

/-- Claim C3 witness: the mapping whose serialization is the 6 bytes
`[1, 1, 97, 0, 1, 98]` round-trips at chunk size 3, an exact multiple of
the serialized size (two full slots). -/
theorem c3_chunk_roundtrip_witness :
    1 ≤ 3 ∧
    ((chunkBytes 3 (pickle_dumps [("a", HVal.str "b")])).flatten =
        pickle_dumps [("a", HVal.str "b")] ∧
      write_metadata [] [("a", HVal.str "b")] none 3 =
        (chunkBytes 3 (pickle_dumps [("a", HVal.str "b")]), none) ∧
      read_metadata (chunkBytes 3 (pickle_dumps [("a", HVal.str "b")])) =
        .ok (some [("a", HVal.str "b")])) :=
  ⟨by decide, (c3_chunk_roundtrip [("a", HVal.str "b")] 3 (by decide)).2⟩

/-- Claim C5, evaluated at the failing input: a POST carrying
`X-Object-Prefetch: Maybe` (an unrecognized value) is not passed through;
`prefetch_object` matches neither branch, returns `None`, and `__call__`
then calls `None` as a WSGI responder, raising TypeError on both
backends.  The downstream app is never reached. -/
theorem c5_unrecognized_marker_crash :
    call_disk app0 "/c"
        { method := "POST", path := "/a/b",
          headers := [("X-Object-Prefetch", HVal.str "Maybe")] }
        { fs := [], memcache := [], xattrFault := none } =
      ({ fs := [], memcache := [], xattrFault := none }, .err .typeError) ∧
    call_mem app0
        { method := "POST", path := "/a/b",
          headers := [("X-Object-Prefetch", HVal.str "Maybe")] }
        { fs := [], memcache := [], xattrFault := none } =
      ({ fs := [], memcache := [], xattrFault := none }, .err .typeError) ∧
    PRes.err PyErr.typeError ≠
      PRes.ok (app0 { method := "POST", path := "/a/b",
                      headers := [("X-Object-Prefetch", HVal.str "Maybe")] }) := by
  refine ⟨?_, ?_, ?_⟩ <;> decide

/-- Claim C6 (amended): for a key whose file exists on the disk backend,
when zero metadata slots are read successfully, read_metadata returns
the no-metadata sentinel (Python `False`) and Fetch returns a response
carrying the body with no cached headers, instead of failing with a
MetadataMissing error. -/
theorem c6_zero_slots_serves_body (w : World) (location : String)
    (req : SwRequest) (f : DiskFile)
    (hf : lookupA w.fs (location ++ req.path) = some f)
    (hx : f.xattrs.flatten = []) :
    get_cached_object_disk w location req =
      .ok { body := f.body, headers := [], is_success := true } := by
  simp [get_cached_object_disk, hf, read_metadata, hx]

/-- Claim C6 witness: a file whose two attribute slots are both empty
yields an empty concatenation, and the fetch serves the body with no
headers. -/
theorem c6_zero_slots_serves_body_witness :
    lookupA ([("/c/w", ({ body := "wb", xattrs := [[], []] } : DiskFile))])
        ("/c" ++ "/w") = some { body := "wb", xattrs := [[], []] } ∧
    ([[], []] : List (List Nat)).flatten = [] ∧
    get_cached_object_disk
        { fs := [("/c/w", { body := "wb", xattrs := [[], []] })],
          memcache := [], xattrFault := none } "/c"
        { method := "GET", path := "/w", headers := [] } =
      .ok { body := "wb", headers := [], is_success := true } :=
  ⟨by decide, by decide,
    c6_zero_slots_serves_body
      { fs := [("/c/w", { body := "wb", xattrs := [[], []] })],
        memcache := [], xattrFault := none } "/c"
      { method := "GET", path := "/w", headers := [] }
      { body := "wb", xattrs := [[], []] } (by decide) (by decide)⟩

/-- Claim C6 counterexample: a file present with zero attribute slots
makes Fetch return `.ok` — a body paired with absent headers — rather
than fail with any error, refuting the claimed fail-closed behavior. -/
theorem c6_counterexample :
    get_cached_object_disk
        { fs := [("/c/a", { body := "x", xattrs := [] })],
          memcache := [], xattrFault := none } "/c"
        { method := "GET", path := "/a", headers := [] } =
      .ok { body := "x", headers := [], is_success := true } := by
  decide

/-- Claim C8, evaluated at the failing input: when the downstream fetch
of a populate request is not successful, the disk backend does not call
Store (the filesystem is unchanged and Exists stays false, as the claim
says), but instead of returning a failure status response it raises
AttributeError: the failure branch builds
`Response(..., request=self.request)` and `request` is never assigned
(the rest of the class uses `self.req`). -/
theorem c8_populate_failure_crash :
    call_disk appFail "/c"
        { method := "POST", path := "/a/b",
          headers := [("X-Object-Prefetch", HVal.str "True")] }
        { fs := [], memcache := [], xattrFault := none } =
      ({ fs := [], memcache := [], xattrFault := none },
       .err (.attributeError "request")) ∧
    is_object_in_cache_disk { fs := [], memcache := [], xattrFault := none }
        "/c" { method := "POST", path := "/a/b",
               headers := [("X-Object-Prefetch", HVal.str "True")] } = false := by
  refine ⟨?_, ?_⟩ <;> decide

/-- Claim C9, evaluated at the failing input, next to the disk behavior
the claim correctly describes: two consecutive disk invalidations both
return the `Deleted ... from cache` success response and Exists is false
after either; the memcache invalidation removes the entry but raises
AttributeError (never-assigned `request`) instead of succeeding, on both
of two consecutive calls. -/
theorem c9_invalidate_behavior :
    call_disk app0 "/c"
        { method := "POST", path := "/p",
          headers := [("X-Object-Prefetch", HVal.str "False")] }
        { fs := [("/c/p", { body := "b", xattrs := [[1]] })],
          memcache := [], xattrFault := none } =
      ({ fs := [], memcache := [], xattrFault := none },
       .ok { body := "Deleted /p from cache\n", headers := [], is_success := true }) ∧
    call_disk app0 "/c"
        { method := "POST", path := "/p",
          headers := [("X-Object-Prefetch", HVal.str "False")] }
        { fs := [], memcache := [], xattrFault := none } =
      ({ fs := [], memcache := [], xattrFault := none },
       .ok { body := "Deleted /p from cache\n", headers := [], is_success := true }) ∧
    is_object_in_cache_disk { fs := [], memcache := [], xattrFault := none } "/c"
        { method := "POST", path := "/p",
          headers := [("X-Object-Prefetch", HVal.str "False")] } = false ∧
    call_mem app0
        { method := "POST", path := "/p",
          headers := [("X-Object-Prefetch", HVal.str "False")] }
        { fs := [], memcache := [("/p", [9])], xattrFault := none } =
      ({ fs := [], memcache := [], xattrFault := none },
       .err (.attributeError "request")) ∧
    call_mem app0
        { method := "POST", path := "/p",
          headers := [("X-Object-Prefetch", HVal.str "False")] }
        { fs := [], memcache := [], xattrFault := none } =
      ({ fs := [], memcache := [], xattrFault := none },
       .err (.attributeError "request")) := by
  refine ⟨?_, ?_, ?_, ?_, ?_⟩ <;> decide

/-- Claim C1 (amended): for any backend, when the method is GET, the key
is reported in cache, and Fetch raises an error, the dispatcher of
`__call__` returns that error to the caller; the request is not
forwarded downstream and the downstream response is not returned. -/
theorem c1_fetch_error_propagates
    (in_cache : World → Bool) (get_cached : World → PRes SwResponse)
    (prefetch : World → World × PRes (Option SwResponse))
    (app : SwRequest → SwResponse) (req : SwRequest) (w : World) (e : PyErr)
    (hm : req.method = "GET") (hc : in_cache w = true)
    (he : get_cached w = .err e) :
    middleware_call in_cache get_cached prefetch app req w = (w, .err e) := by
  simp [middleware_call, hm, hc, he]

/-- Claim C1 witness: the disk middleware at a GET whose key exists but
whose metadata slots hold undecodable bytes returns the unpickling
error. -/
theorem c1_fetch_error_propagates_witness :
    ("GET" : String) = "GET" ∧
    is_object_in_cache_disk
        { fs := [("/c/a/b", { body := "bod", xattrs := [[99, 99]] })],
          memcache := [], xattrFault := none } "/c"
        { method := "GET", path := "/a/b", headers := [] } = true ∧
    get_cached_object_disk
        { fs := [("/c/a/b", { body := "bod", xattrs := [[99, 99]] })],
          memcache := [], xattrFault := none } "/c"
        { method := "GET", path := "/a/b", headers := [] } =
      .err .unpicklingError ∧
    call_disk app0 "/c" { method := "GET", path := "/a/b", headers := [] }
        { fs := [("/c/a/b", { body := "bod", xattrs := [[99, 99]] })],
          memcache := [], xattrFault := none } =
      ({ fs := [("/c/a/b", { body := "bod", xattrs := [[99, 99]] })],
         memcache := [], xattrFault := none },
       .err .unpicklingError) :=
  ⟨rfl, by decide, by decide,
    c1_fetch_error_propagates
      (fun w => is_object_in_cache_disk w "/c"
        { method := "GET", path := "/a/b", headers := [] })
      (fun w => get_cached_object_disk w "/c"
        { method := "GET", path := "/a/b", headers := [] })
      (fun w => prefetch_object_disk app0 "/c"
        { method := "GET", path := "/a/b", headers := [] } w)
      app0 { method := "GET", path := "/a/b", headers := [] }
      { fs := [("/c/a/b", { body := "bod", xattrs := [[99, 99]] })],
        memcache := [], xattrFault := none }
      .unpicklingError rfl (by decide) (by decide)⟩

/-- Claim C1 counterexample: a GET for an existing key with corrupt
metadata is answered with the raised cache error, not with the
downstream response, so the read is rejected due to a cache failure. -/
theorem c1_counterexample :
    (call_disk app0 "/c" { method := "GET", path := "/x", headers := [] }
        { fs := [("/c/x", { body := "bb", xattrs := [[7]] })],
          memcache := [], xattrFault := none }).2 = .err .unpicklingError ∧
    (call_disk app0 "/c" { method := "GET", path := "/x", headers := [] }
        { fs := [("/c/x", { body := "bb", xattrs := [[7]] })],
          memcache := [], xattrFault := none }).2 ≠
      .ok (app0 { method := "GET", path := "/x", headers := [] }) := by
  refine ⟨?_, ?_⟩ <;> decide

/-- Downstream app used by the C2 counterexample: succeeds with a stored
content-length that does not match the body's byte length. -/
def appCL : SwRequest → SwResponse :=
  fun _ => { body := "hi", headers := [("content-length", .str "999")],
             is_success := true }

/-- Claim C2 (amended): after a successful Store on the disk backend, a
Fetch of the same key returns the stored body and the original headers
verbatim — every original header value is reproduced, and content-length
keeps its stored value rather than being recomputed from the body
length. -/
theorem c2_disk_store_fetch (w : World) (app : SwRequest → SwResponse)
    (location : String) (req fetch_req : SwRequest)
    (hfault : w.xattrFault = none)
    (hmark : lookupA req.headers "X-Object-Prefetch" = some (.str "True"))
    (hsucc : (app (copyGet req)).is_success = true)
    (hpath : fetch_req.path = req.path) :
    (prefetch_object_disk app location req w).2 =
      .ok (some { body := "Prefetched: " ++ req.path ++ "\n", headers := [],
                  is_success := true }) ∧
    get_cached_object_disk (prefetch_object_disk app location req w).1
        location fetch_req =
      .ok { body := (app (copyGet req)).body,
            headers := (app (copyGet req)).headers, is_success := true } := by
  have hsnd : (write_metadata
      (((lookupA w.fs (location ++ req.path)).map DiskFile.xattrs).getD [])
      (app (copyGet req)).headers none 65536).2 = none := by
    simp [write_metadata, writeSlots_none]
  have hred : prefetch_object_disk app location req w =
      ({ w with fs := (setA w.fs (location ++ req.path)
          ({ body := (app (copyGet req)).body,
             xattrs := (write_metadata
               (((lookupA w.fs (location ++ req.path)).map DiskFile.xattrs).getD [])
               (app (copyGet req)).headers none 65536).1 } : DiskFile)) },
       .ok (some { body := "Prefetched: " ++ req.path ++ "\n", headers := [],
                   is_success := true })) := by
    simp [prefetch_object_disk, hmark, hfault, hsucc, hsnd]
  rw [hred]
  refine ⟨rfl, ?_⟩
  simp only [get_cached_object_disk, hpath, lookupA_setA_self,
    read_metadata_of_write]
  simp

/-- Claim C2 witness: a store of body `downstream` with a content-type
header round-trips verbatim through the disk backend. -/
theorem c2_disk_store_fetch_witness :
    (({ fs := [], memcache := [], xattrFault := none } : World).xattrFault = none) ∧
    lookupA [("X-Object-Prefetch", HVal.str "True")] "X-Object-Prefetch" =
      some (.str "True") ∧
    (app0 (copyGet { method := "POST", path := "/rt",
                     headers := [("X-Object-Prefetch", HVal.str "True")] })).is_success =
      true ∧
    (prefetch_object_disk app0 "/c"
        { method := "POST", path := "/rt",
          headers := [("X-Object-Prefetch", HVal.str "True")] }
        { fs := [], memcache := [], xattrFault := none }).2 =
      .ok (some { body := "Prefetched: /rt\n", headers := [], is_success := true }) ∧
    get_cached_object_disk
        (prefetch_object_disk app0 "/c"
          { method := "POST", path := "/rt",
            headers := [("X-Object-Prefetch", HVal.str "True")] }
          { fs := [], memcache := [], xattrFault := none }).1 "/c"
        { method := "GET", path := "/rt", headers := [] } =
      .ok { body := "downstream", headers := [("content-type", .str "text/plain")],
            is_success := true } :=
  ⟨rfl, by decide, by decide,
    (c2_disk_store_fetch { fs := [], memcache := [], xattrFault := none } app0 "/c"
      { method := "POST", path := "/rt",
        headers := [("X-Object-Prefetch", HVal.str "True")] }
      { method := "GET", path := "/rt", headers := [] }
      rfl (by decide) (by decide) rfl).1,
    (c2_disk_store_fetch { fs := [], memcache := [], xattrFault := none } app0 "/c"
      { method := "POST", path := "/rt",
        headers := [("X-Object-Prefetch", HVal.str "True")] }
      { method := "GET", path := "/rt", headers := [] }
      rfl (by decide) (by decide) rfl).2⟩

/-- Claim C2 counterexample: storing body `hi` (2 bytes) with a
content-length header of `999` and fetching it back from the disk
backend returns content-length `999` unchanged — the header is not
recomputed to the body's byte length. -/
theorem c2_counterexample :
    (prefetch_object_disk appCL "/c"
        { method := "POST", path := "/a/b",
          headers := [("X-Object-Prefetch", HVal.str "True")] }
        { fs := [], memcache := [], xattrFault := none }).2 =
      .ok (some { body := "Prefetched: /a/b\n", headers := [], is_success := true }) ∧
    get_cached_object_disk
        (prefetch_object_disk appCL "/c"
          { method := "POST", path := "/a/b",
            headers := [("X-Object-Prefetch", HVal.str "True")] }
          { fs := [], memcache := [], xattrFault := none }).1 "/c"
        { method := "GET", path := "/a/b", headers := [] } =
      .ok { body := "hi", headers := [("content-length", HVal.str "999")],
            is_success := true } ∧
    lookupA [("content-length", HVal.str "999")] "content-length" ≠
      some (.int "hi".length) ∧
    lookupA [("content-length", HVal.str "999")] "content-length" ≠
      some (.str "2") := by
  refine ⟨?_, ?_, ?_, ?_⟩ <;> decide

/-- Claim C4 (amended): the two backends are not observationally
equivalent.  For the same invalidate request both remove the entry
(Exists is false afterwards on each), but the disk backend answers with
the `Deleted ... from cache` success response while the memcache backend
raises AttributeError on the never-assigned `request` attribute instead
of returning its status response. -/
theorem c4_backend_divergence (app : SwRequest → SwResponse) (location : String)
    (req : SwRequest) (w : World)
    (hm : req.method = "POST")
    (hmark : lookupA req.headers "X-Object-Prefetch" = some (.str "False")) :
    call_disk app location req w =
      ({ w with fs := removeA w.fs (location ++ req.path) },
       .ok { body := "Deleted " ++ req.path ++ " from cache\n", headers := [],
             is_success := true }) ∧
    call_mem app req w =
      ({ w with memcache := removeA w.memcache req.path },
       .err (.attributeError "request")) ∧
    is_object_in_cache_disk { w with fs := removeA w.fs (location ++ req.path) }
        location req = false ∧
    lookupA (removeA w.memcache req.path) req.path = none := by
  refine ⟨?_, ?_, ?_, ?_⟩
  · simp [call_disk, middleware_call, hm, is_object_prefetch, hmark,
      prefetch_object_disk]
  · simp [call_mem, middleware_call, hm, is_object_prefetch, hmark,
      prefetch_object_mem]
  · simp [is_object_in_cache_disk, lookupA_removeA_self]
  · exact lookupA_removeA_self _ _

/-- Claim C4 witness: invalidating `/p` removes the entry on both
backends, but disk answers with the success text while memcache raises
AttributeError. -/
theorem c4_backend_divergence_witness :
    ("POST" : String) = "POST" ∧
    lookupA [("X-Object-Prefetch", HVal.str "False")] "X-Object-Prefetch" =
      some (.str "False") ∧
    call_disk app0 "/c"
        { method := "POST", path := "/p",
          headers := [("X-Object-Prefetch", HVal.str "False")] }
        { fs := [("/c/p", { body := "b", xattrs := [[1]] })],
          memcache := [("/p", [9])], xattrFault := none } =
      ({ fs := [], memcache := [("/p", [9])], xattrFault := none },
       .ok { body := "Deleted /p from cache\n", headers := [], is_success := true }) ∧
    call_mem app0
        { method := "POST", path := "/p",
          headers := [("X-Object-Prefetch", HVal.str "False")] }
        { fs := [("/c/p", { body := "b", xattrs := [[1]] })],
          memcache := [("/p", [9])], xattrFault := none } =
      ({ fs := [("/c/p", { body := "b", xattrs := [[1]] })],
         memcache := [], xattrFault := none },
       .err (.attributeError "request")) :=
  ⟨rfl, by decide,
    (c4_backend_divergence app0 "/c"
      { method := "POST", path := "/p",
        headers := [("X-Object-Prefetch", HVal.str "False")] }
      { fs := [("/c/p", { body := "b", xattrs := [[1]] })],
        memcache := [("/p", [9])], xattrFault := none } rfl (by decide)).1,
    (c4_backend_divergence app0 "/c"
      { method := "POST", path := "/p",
        headers := [("X-Object-Prefetch", HVal.str "False")] }
      { fs := [("/c/p", { body := "b", xattrs := [[1]] })],
        memcache := [("/p", [9])], xattrFault := none } rfl (by decide)).2.1⟩

/-- Claim C4 counterexample: the same invalidate sequence yields a
success response on the disk backend and a raised AttributeError on the
memcache backend, so the externally observed status results differ. -/
theorem c4_counterexample :
    (call_disk app0 "/c"
        { method := "POST", path := "/q",
          headers := [("X-Object-Prefetch", HVal.str "False")] }
        { fs := [], memcache := [], xattrFault := none }).2 =
      .ok { body := "Deleted /q from cache\n", headers := [], is_success := true } ∧
    (call_mem app0
        { method := "POST", path := "/q",
          headers := [("X-Object-Prefetch", HVal.str "False")] }
        { fs := [], memcache := [], xattrFault := none }).2 =
      .err (.attributeError "request") ∧
    (PRes.ok { body := "Deleted /q from cache\n", headers := [],
               is_success := true } : PRes SwResponse) ≠
      .err (.attributeError "request") := by
  refine ⟨?_, ?_, ?_⟩ <;> decide

/-- The write_metadata loop when the very first `xattr.setxattr` call
fails with ENOSPC: no slot is written (the existing ones persist) and
DiskFileNoSpace is raised. -/
theorem write_metadata_fault0 (old : List (List Nat)) (h : Headers) (n : Nat) :
    write_metadata old h (some (0, .enospc)) n = (old, some .diskFileNoSpace) := by
  simp only [write_metadata, pickle_dumps, chunkBytes_cons]
  simp [writeSlots]

/-- Claim C7 (amended): a disk Store that fails with the no-space error
while writing metadata (after the body file was written) leaves the
partially-written entry observable: the operation raises
DiskFileNoSpace, yet Exists reports the entry present afterwards even
though no successful Store happened. -/
theorem c7_partial_store_observable (w : World) (app : SwRequest → SwResponse)
    (location : String) (req : SwRequest)
    (hmark : lookupA req.headers "X-Object-Prefetch" = some (.str "True"))
    (hfault : w.xattrFault = some (0, .enospc))
    (hsucc : (app (copyGet req)).is_success = true) :
    (prefetch_object_disk app location req w).2 = .err .diskFileNoSpace ∧
    is_object_in_cache_disk (prefetch_object_disk app location req w).1
        location req = true := by
  have hred : prefetch_object_disk app location req w =
      ({ w with fs := (setA w.fs (location ++ req.path)
          ({ body := (app (copyGet req)).body,
             xattrs := ((lookupA w.fs (location ++ req.path)).map DiskFile.xattrs).getD [] } : DiskFile)) },
       .err .diskFileNoSpace) := by
    simp [prefetch_object_disk, hmark, hfault, hsucc, write_metadata_fault0]
  rw [hred]
  exact ⟨rfl, by simp [is_object_in_cache_disk, lookupA_setA_self]⟩

/-- Claim C7 witness: against a device that rejects the first attribute
write, a populate of `/w7` raises DiskFileNoSpace and the key then
reports as cached. -/
theorem c7_partial_store_observable_witness :
    lookupA [("X-Object-Prefetch", HVal.str "True")] "X-Object-Prefetch" =
      some (.str "True") ∧
    (({ fs := [], memcache := [],
        xattrFault := some (0, .enospc) } : World).xattrFault =
      some (0, .enospc)) ∧
    (prefetch_object_disk app0 "/c"
        { method := "POST", path := "/w7",
          headers := [("X-Object-Prefetch", HVal.str "True")] }
        { fs := [], memcache := [], xattrFault := some (0, .enospc) }).2 =
      .err .diskFileNoSpace ∧
    is_object_in_cache_disk
        (prefetch_object_disk app0 "/c"
          { method := "POST", path := "/w7",
            headers := [("X-Object-Prefetch", HVal.str "True")] }
          { fs := [], memcache := [], xattrFault := some (0, .enospc) }).1 "/c"
        { method := "POST", path := "/w7",
          headers := [("X-Object-Prefetch", HVal.str "True")] } = true :=
  ⟨by decide, rfl,
    (c7_partial_store_observable
      { fs := [], memcache := [], xattrFault := some (0, .enospc) } app0 "/c"
      { method := "POST", path := "/w7",
        headers := [("X-Object-Prefetch", HVal.str "True")] }
      (by decide) rfl (by decide)).1,
    (c7_partial_store_observable
      { fs := [], memcache := [], xattrFault := some (0, .enospc) } app0 "/c"
      { method := "POST", path := "/w7",
        headers := [("X-Object-Prefetch", HVal.str "True")] }
      (by decide) rfl (by decide)).2⟩

/-- Claim C7 counterexample: starting from an empty cache, a single
Store that fails with the no-space error while writing metadata leaves
`Exists` reporting the entry present, although no successful Store ever
happened for the key. -/
theorem c7_counterexample :
    (prefetch_object_disk appCL "/c"
        { method := "POST", path := "/k",
          headers := [("X-Object-Prefetch", HVal.str "True")] }
        { fs := [], memcache := [], xattrFault := some (0, .enospc) }).2 =
      .err .diskFileNoSpace ∧
    is_object_in_cache_disk
        (prefetch_object_disk appCL "/c"
          { method := "POST", path := "/k",
            headers := [("X-Object-Prefetch", HVal.str "True")] }
          { fs := [], memcache := [], xattrFault := some (0, .enospc) }).1 "/c"
        { method := "POST", path := "/k",
          headers := [("X-Object-Prefetch", HVal.str "True")] } = true := by
  refine ⟨?_, ?_⟩ <;> decide

/-- Claim C10: the control marker is acted on exactly when the method is
POST and the `X-Object-Prefetch` header is present, regardless of its
value (first conjunct); a POST without the marker passes through to the
downstream app (second); a GET — marker or not — is handled as an
ordinary read: cache check, cached answer on a hit, downstream forward
on a miss, never the prefetch branch (third); any other method passes
through unmodified with the world untouched (fourth). -/
theorem c10_dispatch
    (in_cache : World → Bool) (get_cached : World → PRes SwResponse)
    (prefetch : World → World × PRes (Option SwResponse))
    (app : SwRequest → SwResponse) (req : SwRequest) (w : World) :
    (req.method = "POST" → is_object_prefetch req = true →
      middleware_call in_cache get_cached prefetch app req w =
        (match prefetch w with
         | (w', .ok (some resp)) => (w', .ok resp)
         | (w', .ok none) => (w', .err .typeError)
         | (w', .err e) => (w', .err e))) ∧
    (req.method = "POST" → is_object_prefetch req = false →
      middleware_call in_cache get_cached prefetch app req w = (w, .ok (app req))) ∧
    (req.method = "GET" →
      middleware_call in_cache get_cached prefetch app req w =
        (w, if in_cache w then get_cached w else .ok (app req))) ∧
    (req.method ≠ "GET" → req.method ≠ "POST" →
      middleware_call in_cache get_cached prefetch app req w = (w, .ok (app req))) := by
  refine ⟨?_, ?_, ?_, ?_⟩
  · intro hm hp
    simp [middleware_call, hm, hp]
  · intro hm hp
    simp [middleware_call, hm, hp]
  · intro hm
    by_cases hc : in_cache w <;> simp [middleware_call, hm, hc]
  · intro h1 h2
    simp [middleware_call, h1, h2]

/-- Claim C10 witness: a PUT request (neither GET nor POST) passes
through to the downstream app with the world unchanged. -/
theorem c10_dispatch_witness :
    ("PUT" : String) ≠ "GET" ∧ ("PUT" : String) ≠ "POST" ∧
    middleware_call (fun _ => false) (fun _ => .err .ioError)
        (fun w => (w, .ok none)) app0
        { method := "PUT", path := "/x", headers := [] }
        { fs := [], memcache := [], xattrFault := none } =
      ({ fs := [], memcache := [], xattrFault := none },
       .ok (app0 { method := "PUT", path := "/x", headers := [] })) :=
  ⟨by decide, by decide,
    (c10_dispatch (fun _ => false) (fun _ => .err .ioError)
        (fun w => (w, .ok none)) app0
        { method := "PUT", path := "/x", headers := [] }
        { fs := [], memcache := [], xattrFault := none }).2.2.2
      (by decide) (by decide)⟩

end Caching
